import Mathlib

/-!
Verification development for the Lox anonymous-credential core
(`lox-library`): shallow embedding of the issuer-side request handlers,
the client-side `request`/`handle_response` functions, and the encrypted
migration table, together with theorems settling the specification
claims about them.

Modelling conventions:
* Scalars of the Ristretto group are modelled as `Nat`; a canonical
  scalar is `< ellOrder` (the prime group order).  All attribute values
  appearing in the claims are small day numbers / counters, for which
  `Nat` arithmetic coincides with field arithmetic.
* Group points that occur only as opaque data (MAC components `P`, `Q`)
  are modelled by their discrete logarithm with respect to the relevant
  base point, a `Nat` canonical modulo `ellOrder`.
* The external cryptographic collaborators (the `lox_zkp` compact-proof
  verifier, the `sha2` and `aes_gcm` crates, and `BridgeDb::verify`) are
  not part of this repository; they are passed in as explicit function
  parameters, or, for a zero-knowledge proof attached to a request, the
  request carries the boolean outcome of its verification.
* Randomness (`rand::thread_rng`) is passed in as explicit arguments.
-/

namespace Lox

/-- The order of the Ristretto group, `2^252 + 27742317777372353535851937790883648493`. -/
def ellOrder : Nat := 7237005577332262213973186563042994240857116359379907606001950938285454250989

/-- Attribute scalars (`curve25519_dalek::scalar::Scalar`), modelled as `Nat`. -/
abbrev Scalar := Nat

/-- Group points, modelled by their discrete logarithm (a `Nat`, canonical `< ellOrder`)
with respect to the base point they are built from. -/
abbrev Point := Nat

/-- Modelled from the spec: `scalar_u32` (in `lib.rs`, not part of the corpus)
converts an attribute scalar to a `u32` when it is a 32-bit value, per the
spec's date representation ("All dates are a 32-bit day number"). -/
def scalar_u32 (s : Scalar) : Option Nat :=
  if s < 4294967296 then some s else none

/-- Result of consulting a duplicate filter (`dup_filter::SeenType`). -/
inductive SeenType where
  | Seen : SeenType
  | Fresh : SeenType
deriving DecidableEq, Repr

/-- Modelled from the spec: a replay filter (`dup_filter`, not part of the
corpus) is a single-use set of scalars.  Spec 4.4: "Two operations:
`check(k)` (returns Seen/Fresh without mutation) and `filter(k)` (returns
Seen/Fresh and inserts if Fresh)." -/
abbrev DupFilter := List Scalar

/-- Modelled from the spec: `check(k)` returns Seen/Fresh without mutation. -/
def DupFilter.check (f : DupFilter) (k : Scalar) : SeenType :=
  if k ∈ f then SeenType.Seen else SeenType.Fresh

/-- Modelled from the spec: `filter(k)` returns Seen/Fresh and inserts `k` if Fresh. -/
def DupFilter.consult (f : DupFilter) (k : Scalar) : SeenType × DupFilter :=
  if k ∈ f then (SeenType.Seen, f) else (SeenType.Fresh, k :: f)

/-- Bridge-distribution (BridgeDb) public keys, opaque to the core. -/
abbrev BdbKey := Nat

/-- Open-invitation tokens (`[u8; OPENINV_LENGTH]`), opaque to the core. -/
abbrev Invite := Nat

/-- The issuer state (`BridgeAuth`) restricted to the fields the modelled
handlers read or write: the replay filters, the retained old
bridge-distribution keys, the current one, the bucket-id key set of the
bridge table, and the date oracle.  The remaining `BridgeAuth` fields
(issuer private/public attribute keys, migration tables, bridge lines)
are read-only key material for every handler and enter the model through
the handlers' opaque-crypto parameters. -/
structure BridgeAuth where
  old_bridgedb_keys : List BdbKey
  openinv_filter : List DupFilter
  bridgedb_pub : BdbKey
  bridgedb_pub_filter : DupFilter
  id_filter : DupFilter
  inv_id_filter : DupFilter
  buckets : List Nat
  today : Nat
deriving DecidableEq, Repr

/-! ## open_invite -/

/-- The `open_invite::Request` message: the invitation token, and the
attached `piUserBlinding` compact proof represented by the boolean
outcome of `userblinding::verify_compact` on it (the `lox_zkp` verifier
is an external collaborator). -/
structure OpenInviteRequest where
  invite : Invite
  piUserBlindingOk : Bool
deriving DecidableEq, Repr

/-- Outcome of `handle_open_invite`: `failure` is `Err(ProofError::VerificationFailure)`;
`success` records the verified invitation id and bucket id the issuer
proceeds to issue for. -/
inductive OIOutcome where
  | failure : OIOutcome
  | success : Scalar → Nat → OIOutcome
deriving DecidableEq, Repr

/-- The tail of `handle_open_invite` after the signature and filter
steps: the bucket-inventory check, then the `piUserBlinding` proof
check, then blind issuance (whose state reads are all of key material). -/
def open_invite_after_filter (ba : BridgeAuth) (req : OpenInviteRequest)
    (invite_id : Scalar) (bucket_id : Nat) : OIOutcome × BridgeAuth :=
  if bucket_id ∈ ba.buckets then
    if req.piUserBlindingOk then (OIOutcome.success invite_id bucket_id, ba)
    else (OIOutcome.failure, ba)
  else (OIOutcome.failure, ba)

/-- Translation of `BridgeAuth::handle_open_invite`.  `verify` is the
external collaborator `BridgeDb::verify`.  The `for` loop over
`self.old_keys.bridgedb_key` assigns `old_token` on every iteration, so
only the result for the last retained key survives; this is modelled by
the `foldl` that ignores its accumulator. -/
def handle_open_invite (verify : Invite → BdbKey → Option (Scalar × Nat))
    (ba : BridgeAuth) (req : OpenInviteRequest) : OIOutcome × BridgeAuth :=
  match ba.old_bridgedb_keys.enum.foldl
      (fun _ ik =>
        match verify req.invite ik.2 with
        | some res => some (res, ik.1)
        | none => none)
      (none : Option ((Scalar × Nat) × Nat)) with
  | some ((invite_id, bucket_id), i) =>
      match DupFilter.consult (ba.openinv_filter.getD i []) invite_id with
      | (SeenType.Seen, f2) =>
          (OIOutcome.failure, { ba with openinv_filter := ba.openinv_filter.set i f2 })
      | (SeenType.Fresh, f2) =>
          open_invite_after_filter { ba with openinv_filter := ba.openinv_filter.set i f2 }
            req invite_id bucket_id
  | none =>
      match verify req.invite ba.bridgedb_pub with
      | none => (OIOutcome.failure, ba)
      | some (invite_id, bucket_id) =>
          match DupFilter.consult ba.bridgedb_pub_filter invite_id with
          | (SeenType.Seen, f2) =>
              (OIOutcome.failure, { ba with bridgedb_pub_filter := f2 })
          | (SeenType.Fresh, f2) =>
              open_invite_after_filter { ba with bridgedb_pub_filter := f2 }
                req invite_id bucket_id

/-! ## Credential records (attribute level) -/

/-- The `cred::Lox` credential: MAC `(P, Q)` plus the six attribute scalars. -/
structure LoxCred where
  P : Point
  Q : Point
  id : Scalar
  bucket : Scalar
  trust_level : Scalar
  level_since : Scalar
  invites_remaining : Scalar
  blockages : Scalar
deriving DecidableEq, Repr

/-- The `cred::BucketReachability` credential: MAC plus `date` and `bucket`. -/
structure ReachCred where
  P : Point
  Q : Point
  date : Scalar
  bucket : Scalar
deriving DecidableEq, Repr

/-- The `cred::Invitation` credential: MAC plus `inv_id`, `date`, `bucket`, `blockages`. -/
structure Invitation where
  P : Point
  Q : Point
  inv_id : Scalar
  date : Scalar
  bucket : Scalar
  blockages : Scalar
deriving DecidableEq, Repr

/-- The client-side error taxonomy (`proto::errors::CredentialError`). -/
inductive CredentialError where
  | CredentialMismatch : CredentialError
  | InvalidField : String → String → CredentialError
  | NoInvitationsRemaining : CredentialError
  | TimeThresholdNotMet : Nat → CredentialError
  | ExceededBlockagesThreshold : CredentialError
  | CredentialExpired : CredentialError
deriving DecidableEq, Repr

/-! ## level_up -/

/-- The maximum trust level (`level_up::MAX_LEVEL`). -/
def MAX_LEVEL : Nat := 4

/-- Minimum days at level i before advancing (`level_up::LEVEL_INTERVAL`). -/
def LEVEL_INTERVAL : List Nat := [0, 14, 28, 56, 84]

/-- Invitations granted upon advancing from level i (`level_up::LEVEL_INVITATIONS`). -/
def LEVEL_INVITATIONS : List Nat := [0, 2, 4, 6, 8]

/-- Maximum recorded blockages allowed to advance from level i (`level_up::MAX_BLOCKAGES`). -/
def MAX_BLOCKAGES : List Nat := [0, 4, 3, 2, 2]

/-- The attribute fields of the client state built by `level_up::request`
(the ephemeral ElGamal key, encryptions and commitments are opaque
crypto; `id_client` is the client's random id share passed explicitly). -/
structure LevelUpState where
  id_client : Scalar
  bucket : Scalar
  level : Scalar
  invremain : Scalar
  blockages : Scalar
deriving DecidableEq, Repr

/-- Translation of the validation and attribute logic of
`level_up::request`: all error paths in source order, and the attribute
fields of the resulting `State`.  The commitments, encryptions, range
proof and compact proof built afterwards are opaque crypto with no
further error paths. -/
def level_up_request (lox_cred : LoxCred) (reach_cred : ReachCred)
    (today : Nat) (id_client : Scalar) : Except CredentialError LevelUpState :=
  match scalar_u32 lox_cred.level_since with
  | none => Except.error (CredentialError.InvalidField "level_since" "could not be converted to u32")
  | some level_since =>
  match scalar_u32 lox_cred.trust_level with
  | none => Except.error (CredentialError.InvalidField "trust_level" "could not be converted to u32")
  | some trust_level =>
  if trust_level < 1 ∨ trust_level > MAX_LEVEL then
    Except.error (CredentialError.InvalidField "trust_level"
      ("level " ++ toString trust_level ++ " not in range"))
  else match LEVEL_INTERVAL.get? trust_level with
  | none => Except.error (CredentialError.InvalidField "trust_level"
      ("level " ++ toString trust_level ++ " not in range"))
  | some level_interval =>
  if level_since + level_interval > today then
    Except.error (CredentialError.TimeThresholdNotMet (level_since + level_interval - today))
  else
  let diffdays := today - (level_since + level_interval)
  if diffdays > 511 then Except.error CredentialError.CredentialExpired
  else match scalar_u32 lox_cred.blockages with
  | none => Except.error (CredentialError.InvalidField "blockages" "could not be converted to u32")
  | some blockages =>
  if blockages > MAX_BLOCKAGES.getD trust_level 0 then
    Except.error CredentialError.ExceededBlockagesThreshold
  else if lox_cred.bucket ≠ reach_cred.bucket then
    Except.error CredentialError.CredentialMismatch
  else match scalar_u32 reach_cred.date with
  | none => Except.error (CredentialError.InvalidField "date" "could not be converted to u32")
  | some reach_date =>
  if reach_date ≠ today then
    Except.error (CredentialError.InvalidField "date"
      "reachability credential must be generated today")
  else
    let new_level := if trust_level < MAX_LEVEL then trust_level + 1 else trust_level
    Except.ok
      { id_client := id_client
        bucket := lox_cred.bucket
        level := new_level
        invremain := LEVEL_INVITATIONS.getD trust_level 0
        blockages := lox_cred.blockages }

/-- The `level_up::Request` message, reduced to the fields the handler's
control flow inspects: identity-point flags for `P` and `P_reach`, the
revealed `id` and `trust_level`, and the boolean outcome of
`requestproof::verify_compact` on the attached `piUser` proof. -/
structure LevelUpRequest where
  P_identity : Bool
  P_reach_identity : Bool
  id : Scalar
  level : Scalar
  piUserOk : Bool
deriving DecidableEq, Repr

/-- The attributes the issuer puts into the newly issued Lox MAC in
`handle_level_up` (the visible part of the blind issuance). -/
structure LevelUpIssued where
  trust_level : Nat
  level_since : Nat
  invitations_remaining : Nat
deriving DecidableEq, Repr

/-- Translation of `BridgeAuth::handle_level_up`: identity-point checks,
the trust-level gate (`Some(l) if l as usize <= MAX_LEVEL`), the compact
proof verification (outcome carried by the request), the `id_filter`
consultation in inserting mode, and the issued visible attributes. -/
def handle_level_up (ba : BridgeAuth) (req : LevelUpRequest) :
    Except Unit LevelUpIssued × BridgeAuth :=
  if req.P_identity || req.P_reach_identity then (Except.error (), ba)
  else match scalar_u32 req.level with
  | none => (Except.error (), ba)
  | some level =>
    if level ≤ MAX_LEVEL then
      if req.piUserOk then
        match DupFilter.consult ba.id_filter req.id with
        | (SeenType.Seen, f2) => (Except.error (), { ba with id_filter := f2 })
        | (SeenType.Fresh, f2) =>
            (Except.ok
              { trust_level := if level < MAX_LEVEL then level + 1 else level
                level_since := ba.today
                invitations_remaining := LEVEL_INVITATIONS.getD level 0 },
             { ba with id_filter := f2 })
      else (Except.error (), ba)
    else (Except.error (), ba)

/-- The `level_up::Response` fields that determine the new credential's
attributes, with the blind-issuance proof and decrypted MAC represented
by the boolean outcome of `blindissue::verify_compact` and the decrypted
point `Q`. -/
structure LevelUpResponse where
  P_identity : Bool
  P : Point
  Q : Point
  id_server : Scalar
  level_since : Scalar
  piBlindIssueOk : Bool
deriving DecidableEq, Repr

/-- Translation of `level_up::handle_response`: identity check on `P`,
proof verification, then the new Lox credential assembled from the
response and the saved state. -/
def level_up_handle_response (state : LevelUpState) (resp : LevelUpResponse) :
    Except Unit LoxCred :=
  if resp.P_identity then Except.error ()
  else if resp.piBlindIssueOk then
    Except.ok
      { P := resp.P
        Q := resp.Q
        id := state.id_client + resp.id_server
        bucket := state.bucket
        trust_level := state.level
        level_since := resp.level_since
        invites_remaining := state.invremain
        blockages := state.blockages }
  else Except.error ()

/-! ## check_blockage -/

/-- The minimum trust level for check_blockage (`check_blockage::MIN_TRUST_LEVEL`). -/
def MIN_TRUST_LEVEL : Nat := 3

/-- The `check_blockage::Request` message, reduced to the fields the
handler's control flow inspects. -/
structure CheckBlockageRequest where
  P_identity : Bool
  id : Scalar
  level : Scalar
  piUserOk : Bool
deriving DecidableEq, Repr

/-- Translation of `BridgeAuth::handle_check_blockage`: the `u32` and
minimum-level gates, the proof verification, and the `id_filter`
consultation in non-inserting `check` mode.  The response (the
Migration Key MAC encryption and the encrypted blockage migration
table) is computed from key material and mutates nothing; it is
abstracted to `Unit` here, and its content is modelled separately by
`encrypt_table`. -/
def handle_check_blockage (ba : BridgeAuth) (req : CheckBlockageRequest) :
    Except Unit Unit × BridgeAuth :=
  match scalar_u32 req.level with
  | none => (Except.error (), ba)
  | some level =>
    if req.P_identity || decide (level < MIN_TRUST_LEVEL) then (Except.error (), ba)
    else if req.piUserOk then
      if DupFilter.check ba.id_filter req.id = SeenType.Seen then (Except.error (), ba)
      else (Except.ok (), ba)
    else (Except.error (), ba)

/-! ## redeem_invite -/

/-- Invitations must be used within this many days (`redeem_invite::INVITATION_EXPIRY`). -/
def INVITATION_EXPIRY : Nat := 15

/-- The attribute fields of the client state built by `redeem_invite::request`. -/
structure RedeemInviteState where
  id_client : Scalar
  bucket : Scalar
  blockages : Scalar
deriving DecidableEq, Repr

/-- Translation of the validation and attribute logic of
`redeem_invite::request`: the date conversion, the expiry check
`date + INVITATION_EXPIRY < today`, the future-date check
`diffdays > 15`, and the attribute fields of the resulting `State`.
The remainder of the function is opaque crypto with no error paths. -/
def redeem_invite_request (inv_cred : Invitation) (today : Nat)
    (id_client : Scalar) : Except CredentialError RedeemInviteState :=
  match scalar_u32 inv_cred.date with
  | none => Except.error (CredentialError.InvalidField "date" "could not be converted to u32")
  | some date =>
  if date + INVITATION_EXPIRY < today then Except.error CredentialError.CredentialExpired
  else
    let diffdays := date + INVITATION_EXPIRY - today
    if diffdays > 15 then
      Except.error (CredentialError.InvalidField "date" "credential was created in the future")
    else
      Except.ok
        { id_client := id_client
          bucket := inv_cred.bucket
          blockages := inv_cred.blockages }

/-- The `redeem_invite::Response` fields that determine the new
credential's attributes. -/
structure RedeemInviteResponse where
  P_identity : Bool
  P : Point
  Q : Point
  id_server : Scalar
  level_since : Scalar
  piBlindIssueOk : Bool
deriving DecidableEq, Repr

/-- Translation of `redeem_invite::handle_response`: the new Lox
credential has `trust_level = 1`, `invites_remaining = 0`, and carries
the saved `bucket` and `blockages` of the redeemed Invitation. -/
def redeem_invite_handle_response (state : RedeemInviteState)
    (resp : RedeemInviteResponse) : Except Unit LoxCred :=
  if resp.P_identity then Except.error ()
  else if resp.piBlindIssueOk then
    Except.ok
      { P := resp.P
        Q := resp.Q
        id := state.id_client + resp.id_server
        bucket := state.bucket
        trust_level := 1
        level_since := resp.level_since
        invites_remaining := 0
        blockages := state.blockages }
  else Except.error ()

/-- The `open_invite::Response` fields that determine the new
credential's attributes. -/
structure OpenInviteResponse where
  P_identity : Bool
  P : Point
  Q : Point
  id_server : Scalar
  bucket : Scalar
  level_since : Scalar
  piBlindIssueOk : Bool
deriving DecidableEq, Repr

/-- Translation of `open_invite::handle_response`: the new Lox
credential has `trust_level = 0`, `invites_remaining = 0` and
`blockages = 0` (`Scalar::ZERO` in source). -/
def open_invite_handle_response (id_client : Scalar)
    (resp : OpenInviteResponse) : Except Unit LoxCred :=
  if resp.P_identity then Except.error ()
  else if resp.piBlindIssueOk then
    Except.ok
      { P := resp.P
        Q := resp.Q
        id := id_client + resp.id_server
        bucket := resp.bucket
        trust_level := 0
        level_since := resp.level_since
        invites_remaining := 0
        blockages := 0 }
  else Except.error ()

/-! ## Byte encodings

Canonical 32-byte little-endian encodings of scalars
(`Scalar::as_bytes` / `Scalar::from_bytes_mod_order`) and of compressed
Ristretto points.  Ristretto compression is modelled as the injective
32-byte encoding of the point's canonical discrete logarithm, with
decompression rejecting non-canonical strings — the properties the
`curve25519_dalek` collaborator guarantees. -/

/-- Little-endian base-256 digits, fixed width `k`. -/
def natLE : Nat → Nat → List Nat
  | 0, _ => []
  | k + 1, n => n % 256 :: natLE k (n / 256)

/-- The 32-byte encoding of a canonical scalar or point representative. -/
def natBytes32 (n : Nat) : List Nat := natLE 32 n

/-- Little-endian byte-list to natural number. -/
def bytesToNat (l : List Nat) : Nat := l.foldr (fun b acc => b + 256 * acc) 0

/-- `Scalar::from_bytes_mod_order`. -/
def scalarFromBytesModOrder (l : List Nat) : Scalar := bytesToNat l % ellOrder

/-- Compression of a group point (modelled by its canonical discrete logarithm). -/
def pointCompress (p : Point) : List Nat := natBytes32 p

/-- Decompression: accepts exactly the canonical 32-byte encodings. -/
def pointDecompress (l : List Nat) : Option Point :=
  if l.length = 32 ∧ l.all (fun b => b < 256) ∧ bytesToNat l < ellOrder then
    some (bytesToNat l)
  else none

theorem natLE_length (k n : Nat) : (natLE k n).length = k := by
  induction k generalizing n with
  | zero => rfl
  | succ k ih => simp [natLE, ih]

theorem natBytes32_length (n : Nat) : (natBytes32 n).length = 32 :=
  natLE_length 32 n

theorem pointCompress_length (p : Point) : (pointCompress p).length = 32 :=
  natBytes32_length p

theorem bytesToNat_natLE (k n : Nat) : bytesToNat (natLE k n) = n % 256 ^ k := by
  induction k generalizing n with
  | zero => simp [natLE, bytesToNat, Nat.mod_one]
  | succ k ih =>
      have h : (256 : Nat) ^ (k + 1) = 256 * 256 ^ k := by ring
      simp only [natLE, bytesToNat, List.foldr_cons]
      have ih2 := ih (n / 256)
      simp only [bytesToNat] at ih2
      rw [ih2, h, Nat.mod_mul]

theorem natLE_all_lt (k n : Nat) : (natLE k n).all (fun b => b < 256) = true := by
  induction k generalizing n with
  | zero => rfl
  | succ k ih =>
      simp only [natLE, List.all_cons, Bool.and_eq_true, decide_eq_true_eq]
      exact ⟨Nat.mod_lt _ (by norm_num), ih (n / 256)⟩

theorem ellOrder_lt_pow : ellOrder < 256 ^ 32 := by norm_num [ellOrder]

theorem ellOrder_pos : 0 < ellOrder := by norm_num [ellOrder]

/-- Roundtrip for 32-byte encodings of canonical representatives. -/
theorem bytesToNat_natBytes32 (n : Nat) (h : n < ellOrder) :
    bytesToNat (natBytes32 n) = n := by
  have := bytesToNat_natLE 32 n
  rw [natBytes32, this, Nat.mod_eq_of_lt (lt_trans h ellOrder_lt_pow)]

theorem pointDecompress_pointCompress (p : Point) (h : p < ellOrder) :
    pointDecompress (pointCompress p) = some p := by
  unfold pointDecompress pointCompress
  rw [if_pos]
  · rw [bytesToNat_natBytes32 p h]
  · refine ⟨natBytes32_length p, ?_, ?_⟩
    · exact natLE_all_lt 32 p
    · rw [bytesToNat_natBytes32 p h]; exact h

/-! ## Migration table -/

/-- Each plaintext entry is serialized into this many bytes
(`migration_table::MIGRATION_BYTES`). -/
def MIGRATION_BYTES : Nat := 96

/-- The size of an encrypted entry (`migration_table::ENC_MIGRATION_BYTES`). -/
def ENC_MIGRATION_BYTES : Nat := MIGRATION_BYTES + 12 + 16

/-- The type of migration table (`migration_table::MigrationType`). -/
inductive MigrationType where
  | TrustUpgrade : MigrationType
  | Blockage : MigrationType
deriving DecidableEq, Repr

/-- The scalar representing a `MigrationType` in a Migration credential. -/
def MigrationType.toScalar : MigrationType → Scalar
  | MigrationType.TrustUpgrade => 0
  | MigrationType.Blockage => 1

/-- The `cred::Migration` credential. -/
structure Migration where
  P : Point
  Q : Point
  lox_id : Scalar
  from_bucket : Scalar
  to_bucket : Scalar
  migration_type : Scalar
deriving DecidableEq, Repr

/-- An issuer attribute private key (`IssuerPrivKey`): `x0tilde` and the
per-attribute scalars `x[0..n]`. -/
structure IssuerPrivKey where
  x0tilde : Scalar
  x : List Scalar
deriving DecidableEq, Repr

/-- The Migration Key credential MAC value `Qk` computed in
`encrypt_cred`: `(xk[0] + xk[1]*id + xk[2]*from_bucket)`, the discrete
logarithm with respect to the per-request base `Pk`. -/
def migrationQk (migrationkey_priv : IssuerPrivKey) (id from_bucket : Scalar) : Point :=
  (migrationkey_priv.x.getD 0 0 + migrationkey_priv.x.getD 1 0 * id
    + migrationkey_priv.x.getD 2 0 * from_bucket) % ellOrder

/-- The linear combination of Migration-credential attributes under the
Migration issuer key, so that the MAC is `Q = b * migrationMacCoeff · B`. -/
def migrationMacCoeff (migration_priv : IssuerPrivKey)
    (id from_bucket to_bucket migration_type : Scalar) : Nat :=
  migration_priv.x.getD 0 0 + migration_priv.x.getD 1 0 * id
    + migration_priv.x.getD 2 0 * from_bucket + migration_priv.x.getD 3 0 * to_bucket
    + migration_priv.x.getD 4 0 * migration_type

/-- The input hashed in `encrypt_cred` and `decrypt_cred`:
`id.as_bytes() || from_bucket.as_bytes() || Qk.compress().as_bytes()`. -/
def migHashInput (id from_bucket : Scalar) (Qk : Point) : List Nat :=
  natBytes32 id ++ natBytes32 from_bucket ++ pointCompress Qk

/-- The 96-byte serialized plaintext of `encrypt_cred`:
`to_bucket || P.compress() || Q.compress()`. -/
def migPlaintext (to_bucket : Scalar) (P Q : Point) : List Nat :=
  natBytes32 to_bucket ++ pointCompress P ++ pointCompress Q

/-- The MAC base point `P = b·B` chosen in `encrypt_cred`. -/
def migMacP (b : Nat) : Point := b % ellOrder

/-- The MAC point `Q` of the Migration credential in `encrypt_cred`. -/
def migMacQ (migration_priv : IssuerPrivKey)
    (id from_bucket to_bucket migration_type : Scalar) (b : Nat) : Point :=
  (b * migrationMacCoeff migration_priv id from_bucket to_bucket migration_type) % ellOrder

/-- The SHA-256 hash of `(id, from_bucket, Qk)` computed in
`encrypt_cred`, whose first half is the entry label and whose second
half is the AES key. -/
def migFullHash (sha256 : List Nat → List Nat) (migrationkey_priv : IssuerPrivKey)
    (id from_bucket : Scalar) : List Nat :=
  sha256 (migHashInput id from_bucket (migrationQk migrationkey_priv id from_bucket))

/-- Translation of `migration_table::encrypt_cred`.  `sha256` (crate
`sha2`) and `aesEncrypt` (crate `aes_gcm`, AES-128-GCM sealing
returning ciphertext-plus-tag) are external collaborators; the random
MAC base exponent `b` and the 12 random nonce bytes are passed
explicitly.  Returns the `(label, encrypted entry)` pair. -/
def encrypt_cred (sha256 : List Nat → List Nat)
    (aesEncrypt : List Nat → List Nat → List Nat → List Nat)
    (id from_bucket to_bucket migration_type : Scalar)
    (migration_priv migrationkey_priv : IssuerPrivKey)
    (b : Nat) (noncebytes : List Nat) : List Nat × List Nat :=
  let P := migMacP b
  let Q := migMacQ migration_priv id from_bucket to_bucket migration_type b
  let credbytes := migPlaintext to_bucket P Q
  let fullhash := migFullHash sha256 migrationkey_priv id from_bucket
  let aeskey := fullhash.drop 16
  let ciphertext := aesEncrypt aeskey noncebytes credbytes
  let enccredbytes := noncebytes ++ ciphertext
  let label := fullhash.take 16
  (label, enccredbytes)

/-- Label lookup in the encrypted migration table (the `HashMap` is
modelled as an association list of `(label, value)` pairs). -/
def tableLookup (t : List (List Nat × List Nat)) (k : List Nat) : Option (List Nat) :=
  (t.find? (fun e => decide (e.1 = k))).map Prod.snd

/-- Translation of `migration_table::decrypt_cred`: recompute the hash
from `(lox_id, from_bucket, Qk)`, look up the label, decrypt with the
second half as AES key and the first 12 stored bytes as nonce, and
deserialize `to_bucket || P || Q`.  `aesDecrypt` is the AES-128-GCM
opening operation, returning `none` on authentication failure. -/
def decrypt_cred (sha256 : List Nat → List Nat)
    (aesDecrypt : List Nat → List Nat → List Nat → Option (List Nat))
    (Qk : Point) (lox_id from_bucket : Scalar) (migration_type : MigrationType)
    (enc_migration_table : List (List Nat × List Nat)) : Option Migration :=
  let fullhash := sha256 (migHashInput lox_id from_bucket Qk)
  let label := fullhash.take 16
  match tableLookup enc_migration_table label with
  | none => none
  | some ciphertext =>
    let aeskey := fullhash.drop 16
    let nonce := ciphertext.take 12
    match aesDecrypt aeskey nonce (ciphertext.drop 12) with
    | none => none
    | some plaintextbytes =>
      let to_bucket := scalarFromBytesModOrder (plaintextbytes.take 32)
      match pointDecompress ((plaintextbytes.drop 32).take 32) with
      | none => none
      | some P =>
        match pointDecompress (plaintextbytes.drop 64) with
        | none => none
        | some Q =>
          some
            { P := P
              Q := Q
              lox_id := lox_id
              from_bucket := from_bucket
              to_bucket := to_bucket
              migration_type := migration_type.toScalar }

/-- The read-only bridge table surface the migration table consumes:
`keys` maps a bucket id to its 128-bit bucket key. -/
structure BridgeTable where
  keys : List (Nat × Nat)
deriving DecidableEq, Repr

/-- Association-list lookup standing for `HashMap::get`. -/
def keyLookup (keys : List (Nat × Nat)) (i : Nat) : Option Nat :=
  (keys.find? (fun e => decide (e.1 = i))).map Prod.snd

/-- Modelled from the spec: `bridge_table::to_scalar` (in
`bridge_table.rs`, not part of the corpus) packs a 32-bit `bucket_id`
and a 128-bit bucket key into a single scalar; the spec requires the
encoding to be bijective and stable. -/
def to_scalar (bucket_id : Nat) (bucket_key : Nat) : Scalar :=
  bucket_id + 4294967296 * bucket_key

/-- Translation of `migration_table::encrypt_cred_ids`: look up both
bucket keys, returning `none` if either id is absent from the bridge
table, and otherwise encrypt the entry on the packed bucket scalars. -/
def encrypt_cred_ids (sha256 : List Nat → List Nat)
    (aesEncrypt : List Nat → List Nat → List Nat → List Nat)
    (id : Scalar) (from_id to_id : Nat) (migration_type : Scalar)
    (bridgetable : BridgeTable)
    (migration_priv migrationkey_priv : IssuerPrivKey)
    (b : Nat) (noncebytes : List Nat) : Option (List Nat × List Nat) :=
  match keyLookup bridgetable.keys from_id with
  | none => none
  | some fromkey =>
    match keyLookup bridgetable.keys to_id with
    | none => none
    | some tokey =>
      some (encrypt_cred sha256 aesEncrypt id
        (to_scalar from_id fromkey) (to_scalar to_id tokey) migration_type
        migration_priv migrationkey_priv b noncebytes)

/-- Translation of `MigrationTable::encrypt_table`: `filter_map` of
`encrypt_cred_ids` over the `(from_id, to_id)` pairs.  The per-entry
randomness drawn inside `encrypt_cred` is supplied by the streams
`bOf` and `nonceOf`. -/
def encrypt_table (sha256 : List Nat → List Nat)
    (aesEncrypt : List Nat → List Nat → List Nat → List Nat)
    (table : List (Nat × Nat)) (migration_type : Scalar) (id : Scalar)
    (bridgetable : BridgeTable)
    (migration_priv migrationkey_priv : IssuerPrivKey)
    (bOf : Nat × Nat → Nat) (nonceOf : Nat × Nat → List Nat) :
    List (List Nat × List Nat) :=
  table.filterMap (fun p =>
    encrypt_cred_ids sha256 aesEncrypt id p.1 p.2 migration_type bridgetable
      migration_priv migrationkey_priv (bOf p) (nonceOf p))

/-! ## Theorems settling the claims -/

/-- C7: `handle_check_blockage` consults the Lox `id_filter` in check
(non-inserting) mode only: it returns VerificationFailure when the
revealed id is already in the filter, and in every case (success or
failure) the issuer state — in particular the `id_filter` — is the same
after the call as before it. -/
theorem check_blockage_filter_frame (ba : BridgeAuth) (req : CheckBlockageRequest) :
    (handle_check_blockage ba req).2 = ba ∧
    (DupFilter.check ba.id_filter req.id = SeenType.Seen →
      (handle_check_blockage ba req).1 = Except.error ()) := by
  unfold handle_check_blockage
  constructor
  · split
    · rfl
    · split
      · rfl
      · split
        · split <;> rfl
        · rfl
  · intro h
    split
    · rfl
    · split
      · rfl
      · split
        · simp [h]
        · rfl

/-- Issuer state used to instantiate the check_blockage frame theorem:
the requester's id `21` is already in the `id_filter`. -/
def cbBA : BridgeAuth :=
  { old_bridgedb_keys := []
    openinv_filter := []
    bridgedb_pub := 0
    bridgedb_pub_filter := []
    id_filter := [21]
    inv_id_filter := []
    buckets := [7]
    today := 1000 }

/-- A concrete check_blockage request revealing the already-seen id `21`. -/
def cbReq : CheckBlockageRequest :=
  { P_identity := false, id := 21, level := 3, piUserOk := true }

/-- Witness for C7: at a concrete state whose `id_filter` already
contains the revealed id, the handler leaves the state untouched and
fails. -/
theorem check_blockage_filter_frame_witness :
    (handle_check_blockage cbBA cbReq).2 = cbBA ∧
    (handle_check_blockage cbBA cbReq).1 = Except.error () :=
  ⟨(check_blockage_filter_frame cbBA cbReq).1,
   (check_blockage_filter_frame cbBA cbReq).2 (by decide)⟩

/-- C8: for an Invitation credential whose `date` is a day number, the
`redeem_invite::request` returns `CredentialExpired` exactly when
`date + INVITATION_EXPIRY < today`, returns `InvalidField "date" _`
exactly when `date + INVITATION_EXPIRY - today > 15` (credential dated
in the future), and otherwise proceeds, producing the client state
carrying the invitation's bucket and blockages. -/
theorem redeem_invite_date_checks (inv : Invitation) (today : Nat) (idc : Scalar)
    (hdate : inv.date < 4294967296) :
    (redeem_invite_request inv today idc = Except.error CredentialError.CredentialExpired
       ↔ inv.date + INVITATION_EXPIRY < today) ∧
    (redeem_invite_request inv today idc
        = Except.error (CredentialError.InvalidField "date" "credential was created in the future")
       ↔ inv.date + INVITATION_EXPIRY - today > 15) ∧
    (¬ inv.date + INVITATION_EXPIRY < today → ¬ inv.date + INVITATION_EXPIRY - today > 15 →
       redeem_invite_request inv today idc
         = Except.ok { id_client := idc, bucket := inv.bucket, blockages := inv.blockages }) := by
  unfold redeem_invite_request
  rw [show scalar_u32 inv.date = some inv.date from if_pos hdate]
  by_cases h1 : inv.date + INVITATION_EXPIRY < today
  · have h2 : inv.date + INVITATION_EXPIRY - today = 0 :=
      Nat.sub_eq_zero_of_le (le_of_lt h1)
    simp [h1, h2]
  · by_cases h3 : inv.date + INVITATION_EXPIRY - today > 15
    · simp [h1, h3]
    · simp [h1, h3]

/-- A concrete Invitation for the C8 witness: issued at `date = 2000`. -/
def invC8 : Invitation :=
  { P := 1, Q := 1, inv_id := 44, date := 2000, bucket := 9, blockages := 0 }

/-- Witness for C8 at the boundary scenario S6: redemption of a
`date = 2000` invitation succeeds at `today = 2015`, is expired at
`today = 2016`, and is rejected as a future date at `today = 1999`. -/
theorem redeem_invite_date_checks_witness :
    invC8.date < 4294967296 ∧
    redeem_invite_request invC8 2015 5
      = Except.ok { id_client := 5, bucket := invC8.bucket, blockages := invC8.blockages } ∧
    redeem_invite_request invC8 2016 5 = Except.error CredentialError.CredentialExpired ∧
    redeem_invite_request invC8 1999 5
      = Except.error (CredentialError.InvalidField "date" "credential was created in the future") :=
  ⟨by decide,
   (redeem_invite_date_checks invC8 2015 5 (by decide)).2.2 (by decide) (by decide),
   (redeem_invite_date_checks invC8 2016 5 (by decide)).1.mpr (by decide),
   (redeem_invite_date_checks invC8 1999 5 (by decide)).2.1.mpr (by decide)⟩

/-- C10: `MigrationTable::encrypt_table` never fails: its output has
exactly one encrypted entry per `(from_id, to_id)` pair for which both
bucket ids have keys in the bridge table — the entry `encrypt_cred`
produces on the packed bucket scalars — and pairs referencing a bucket
id absent from the bridge table are silently omitted. -/
theorem encrypt_table_characterization (sha256 : List Nat → List Nat)
    (aesEncrypt : List Nat → List Nat → List Nat → List Nat)
    (table : List (Nat × Nat)) (mt : Scalar) (id : Scalar) (bt : BridgeTable)
    (mp mkp : IssuerPrivKey) (bOf : Nat × Nat → Nat) (nonceOf : Nat × Nat → List Nat) :
    encrypt_table sha256 aesEncrypt table mt id bt mp mkp bOf nonceOf =
      (table.filter (fun p =>
          ((keyLookup bt.keys p.1).isSome && (keyLookup bt.keys p.2).isSome))).map
        (fun p => encrypt_cred sha256 aesEncrypt id
            (to_scalar p.1 ((keyLookup bt.keys p.1).getD 0))
            (to_scalar p.2 ((keyLookup bt.keys p.2).getD 0)) mt mp mkp (bOf p) (nonceOf p)) ∧
    (encrypt_table sha256 aesEncrypt table mt id bt mp mkp bOf nonceOf).length =
      (table.filter (fun p =>
          ((keyLookup bt.keys p.1).isSome && (keyLookup bt.keys p.2).isSome))).length := by
  have hmain : encrypt_table sha256 aesEncrypt table mt id bt mp mkp bOf nonceOf =
      (table.filter (fun p =>
          ((keyLookup bt.keys p.1).isSome && (keyLookup bt.keys p.2).isSome))).map
        (fun p => encrypt_cred sha256 aesEncrypt id
            (to_scalar p.1 ((keyLookup bt.keys p.1).getD 0))
            (to_scalar p.2 ((keyLookup bt.keys p.2).getD 0)) mt mp mkp (bOf p) (nonceOf p)) := by
    induction table with
    | nil => rfl
    | cons p rest ih =>
        simp only [encrypt_table] at ih ⊢
        cases hf : keyLookup bt.keys p.1 with
        | none =>
            have hp : encrypt_cred_ids sha256 aesEncrypt id p.1 p.2 mt bt mp mkp
                (bOf p) (nonceOf p) = none := by
              unfold encrypt_cred_ids; rw [hf]
            simp [List.filterMap_cons, List.filter_cons, hp, hf, ih]
        | some fromkey =>
            cases ht : keyLookup bt.keys p.2 with
            | none =>
                have hp : encrypt_cred_ids sha256 aesEncrypt id p.1 p.2 mt bt mp mkp
                    (bOf p) (nonceOf p) = none := by
                  unfold encrypt_cred_ids; rw [hf, ht]
                simp [List.filterMap_cons, List.filter_cons, hp, hf, ht, ih]
            | some tokey =>
                have hp : encrypt_cred_ids sha256 aesEncrypt id p.1 p.2 mt bt mp mkp
                    (bOf p) (nonceOf p)
                    = some (encrypt_cred sha256 aesEncrypt id (to_scalar p.1 fromkey)
                        (to_scalar p.2 tokey) mt mp mkp (bOf p) (nonceOf p)) := by
                  unfold encrypt_cred_ids; rw [hf, ht]
                simp [List.filterMap_cons, List.filter_cons, hp, hf, ht, ih]
  exact ⟨hmain, by rw [hmain, List.length_map]⟩

/-- C2 (amended): for every level_up exchange starting from a
trust-level-1 Lox credential that meets all preconditions, the newly
issued Lox credential has `trust_level = 2` and `invites_remaining = 2`
(the code grants `LEVEL_INVITATIONS[old level] = LEVEL_INVITATIONS[1] = 2`
invitations on advancing from level 1, not 4). -/
theorem level_up_from_level_one (lox : LoxCred) (reach : ReachCred) (today : Nat)
    (idc : Scalar) (st : LevelUpState) (resp : LevelUpResponse) (cred : LoxCred)
    (hlvl : lox.trust_level = 1)
    (hreq : level_up_request lox reach today idc = Except.ok st)
    (hresp : level_up_handle_response st resp = Except.ok cred) :
    cred.trust_level = 2 ∧ cred.invites_remaining = 2 := by
  have hst : st.level = 2 ∧ st.invremain = 2 := by
    simp only [level_up_request, hlvl, show scalar_u32 1 = some 1 from rfl] at hreq
    repeat' split at hreq
    all_goals simp_all [MAX_LEVEL, LEVEL_INVITATIONS]
    rw [← hreq]
    exact ⟨rfl, rfl⟩
  simp only [level_up_handle_response] at hresp
  repeat' split at hresp
  all_goals simp_all
  rw [← hresp]
  exact ⟨rfl, rfl⟩

/-- The level-1 Lox credential of boundary scenario S4 (from S2 at
`today = 1000`). -/
def loxC2 : LoxCred :=
  { P := 1, Q := 1, id := 77, bucket := 9, trust_level := 1, level_since := 1000,
    invites_remaining := 0, blockages := 0 }

/-- A same-day BucketReachability credential for the same bucket at
`today = 1014`. -/
def reachC2 : ReachCred := { P := 1, Q := 1, date := 1014, bucket := 9 }

/-- The client state scenario S4 produces. -/
def stC2 : LevelUpState :=
  { id_client := 7, bucket := 9, level := 2, invremain := 2, blockages := 0 }

/-- A response for the S4 exchange whose blind-issuance proof verifies. -/
def respC2 : LevelUpResponse :=
  { P_identity := false, P := 3, Q := 4, id_server := 2, level_since := 1014,
    piBlindIssueOk := true }

/-- The credential the S4 exchange produces. -/
def credC2 : LoxCred :=
  { P := 3, Q := 4, id := 9, bucket := 9, trust_level := 2, level_since := 1014,
    invites_remaining := 2, blockages := 0 }

/-- C2 counterexample: running the S4 scenario (level-1 credential,
`level_since = 1014 - 14`, same-day reachability) yields
`invites_remaining = 2`, not 4 as the claim states. -/
theorem level_up_s4_invites_two_not_four :
    level_up_request loxC2 reachC2 1014 7 = Except.ok stC2 ∧
    level_up_handle_response stC2 respC2 = Except.ok credC2 ∧
    credC2.trust_level = 2 ∧ credC2.invites_remaining = 2 ∧ credC2.invites_remaining ≠ 4 :=
  ⟨rfl, rfl, rfl, rfl, by decide⟩

/-- Witness for C2 at the S4 scenario values. -/
theorem level_up_from_level_one_witness :
    credC2.trust_level = 2 ∧ credC2.invites_remaining = 2 :=
  level_up_from_level_one loxC2 reachC2 1014 7 stC2 respC2 credC2 rfl rfl rfl

/-- C6 (amended): `handle_level_up` accepts a request only if the
revealed `trust_level` converts to a `u32` that is at most `MAX_LEVEL`;
the lower bound `trust_level ≥ 1` is enforced only client-side by
`level_up::request`, which rejects `trust_level = 0` with
`InvalidField`; the handler itself does not reject a revealed
trust level of 0. -/
theorem level_up_level_gate :
    (∀ (ba : BridgeAuth) (req : LevelUpRequest),
        (handle_level_up ba req).1 ≠ Except.error () →
        ∃ l, scalar_u32 req.level = some l ∧ l ≤ MAX_LEVEL) ∧
    (∀ (lox : LoxCred) (reach : ReachCred) (today : Nat) (idc : Scalar),
        lox.trust_level = 0 → lox.level_since < 4294967296 →
        level_up_request lox reach today idc
          = Except.error (CredentialError.InvalidField "trust_level" "level 0 not in range")) := by
  constructor
  · intro ba req h
    unfold handle_level_up at h
    split at h
    · exact absurd rfl h
    · split at h
      · exact absurd rfl h
      · rename_i level heq
        split at h
        · rename_i hle
          exact ⟨level, heq, hle⟩
        · exact absurd rfl h
  · intro lox reach today idc h0 hls
    have h1 : scalar_u32 lox.level_since = some lox.level_since := if_pos hls
    simp only [level_up_request, h0, h1, show scalar_u32 0 = some 0 from rfl]
    norm_num [MAX_LEVEL]
    rfl

/-- An issuer state for the C6 instances. -/
def baC6 : BridgeAuth :=
  { old_bridgedb_keys := []
    openinv_filter := []
    bridgedb_pub := 0
    bridgedb_pub_filter := []
    id_filter := []
    inv_id_filter := []
    buckets := []
    today := 1200 }

/-- A level_up request revealing `trust_level = 0` with a verifying proof. -/
def reqC6 : LevelUpRequest :=
  { P_identity := false, P_reach_identity := false, id := 33, level := 0, piUserOk := true }

/-- A level-0 Lox credential (as issued by open_invite). -/
def loxC6 : LoxCred :=
  { P := 1, Q := 1, id := 12, bucket := 5, trust_level := 0, level_since := 1000,
    invites_remaining := 0, blockages := 0 }

/-- A reachability credential for the C6 request-side instance. -/
def reachC6 : ReachCred := { P := 1, Q := 1, date := 1014, bucket := 5 }

/-- C6 counterexample: `handle_level_up` does not return
VerificationFailure on a request with revealed `trust_level = 0`: it
accepts it, issues a credential at level 1, and records the id in the
filter. -/
theorem handle_level_up_accepts_level_zero :
    (handle_level_up baC6 reqC6).1
      = Except.ok { trust_level := 1, level_since := 1200, invitations_remaining := 0 } ∧
    (handle_level_up baC6 reqC6).2.id_filter = [33] :=
  ⟨rfl, rfl⟩

/-- Witness for C6: the handler-side gate facts at a concrete accepted
request, and the client-side rejection of a level-0 credential. -/
theorem level_up_level_gate_witness :
    (∃ l, scalar_u32 reqC6.level = some l ∧ l ≤ MAX_LEVEL) ∧
    level_up_request loxC6 reachC6 1014 3
      = Except.error (CredentialError.InvalidField "trust_level" "level 0 not in range") :=
  ⟨level_up_level_gate.1 baC6 reqC6 (fun h => Except.noConfusion h),
   level_up_level_gate.2 loxC6 reachC6 1014 3 rfl (by decide)⟩

/-- C4 (amended): every Lox credential produced by
`open_invite::handle_response` has `trust_level = 0`,
`invites_remaining = 0` and `blockages = 0`; every one produced by
`redeem_invite::handle_response` has `trust_level = 1` and
`invites_remaining = 0`, but its `blockages` attribute equals the
redeemed Invitation's blockages, which need not be zero. -/
theorem handle_response_low_level_attrs :
    (∀ (idc : Scalar) (resp : OpenInviteResponse) (cred : LoxCred),
        open_invite_handle_response idc resp = Except.ok cred →
        cred.trust_level = 0 ∧ cred.invites_remaining = 0 ∧ cred.blockages = 0) ∧
    (∀ (st : RedeemInviteState) (resp : RedeemInviteResponse) (cred : LoxCred),
        redeem_invite_handle_response st resp = Except.ok cred →
        cred.trust_level = 1 ∧ cred.invites_remaining = 0 ∧ cred.blockages = st.blockages) := by
  constructor
  · intro idc resp cred h
    unfold open_invite_handle_response at h
    repeat' split at h
    all_goals simp_all
    rw [← h]
    exact ⟨rfl, rfl, rfl⟩
  · intro st resp cred h
    unfold redeem_invite_handle_response at h
    repeat' split at h
    all_goals simp_all
    rw [← h]
    exact ⟨rfl, rfl, rfl⟩

/-- The invitation of the C4 counterexample: issued by a user whose Lox
credential carried 3 blockages (issue_invite pins the invitation's
blockages to the inviter's). -/
def invC4 : Invitation :=
  { P := 1, Q := 1, inv_id := 50, date := 2000, bucket := 9, blockages := 3 }

/-- A redeem_invite response whose blind-issuance proof verifies. -/
def respC4 : RedeemInviteResponse :=
  { P_identity := false, P := 6, Q := 7, id_server := 1, level_since := 2010,
    piBlindIssueOk := true }

/-- The client state produced by redeeming `invC4`. -/
def stC4 : RedeemInviteState := { id_client := 4, bucket := 9, blockages := 3 }

/-- The level-1 credential with 3 blockages the C4 exchange produces. -/
def credC4 : LoxCred :=
  { P := 6, Q := 7, id := 5, bucket := 9, trust_level := 1, level_since := 2010,
    invites_remaining := 0, blockages := 3 }

/-- C4 counterexample: redeeming an invitation carrying 3 blockages
yields a trust-level-1 Lox credential whose `blockages` attribute is 3,
not 0. -/
theorem redeem_invite_level1_nonzero_blockages :
    redeem_invite_request invC4 2010 4 = Except.ok stC4 ∧
    redeem_invite_handle_response stC4 respC4 = Except.ok credC4 ∧
    credC4.trust_level = 1 ∧ credC4.blockages ≠ 0 :=
  ⟨rfl, rfl, rfl, by decide⟩

/-- An open_invite response for the C4 witness. -/
def oiRespC4 : OpenInviteResponse :=
  { P_identity := false, P := 2, Q := 3, id_server := 1, bucket := 8, level_since := 1000,
    piBlindIssueOk := true }

/-- The level-0 credential the open_invite response yields for the C4 witness. -/
def credOIC4 : LoxCred :=
  { P := 2, Q := 3, id := 12, bucket := 8, trust_level := 0, level_since := 1000,
    invites_remaining := 0, blockages := 0 }

/-- Witness for C4 at concrete open_invite and redeem_invite responses. -/
theorem handle_response_low_level_attrs_witness :
    (credOIC4.trust_level = 0 ∧ credOIC4.invites_remaining = 0 ∧ credOIC4.blockages = 0) ∧
    (credC4.trust_level = 1 ∧ credC4.invites_remaining = 0 ∧
      credC4.blockages = stC4.blockages) :=
  ⟨handle_response_low_level_attrs.1 11 oiRespC4 credOIC4 rfl,
   handle_response_low_level_attrs.2 stC4 respC4 credC4 rfl⟩

/-- Consulting a filter and getting Seen leaves the filter unchanged. -/
theorem consult_seen {f : DupFilter} {k : Scalar} {f2 : DupFilter}
    (h : DupFilter.consult f k = (SeenType.Seen, f2)) : f2 = f := by
  unfold DupFilter.consult at h
  split at h
  · exact (Prod.mk.injEq _ _ _ _ ▸ h).2.symm
  · simp at h

/-- Consulting a filter and getting Fresh inserts the key. -/
theorem consult_fresh {f : DupFilter} {k : Scalar} {f2 : DupFilter}
    (h : DupFilter.consult f k = (SeenType.Fresh, f2)) : f2 = k :: f := by
  unfold DupFilter.consult at h
  split at h
  · simp at h
  · exact (Prod.mk.injEq _ _ _ _ ▸ h).2.symm

/-- Writing back the element read at an index leaves a list unchanged. -/
theorem set_getD_self {α : Type} (l : List α) (i : Nat) (d : α) :
    l.set i (l.getD i d) = l := by
  induction l generalizing i with
  | nil => simp
  | cons a t ih =>
      cases i with
      | zero => simp
      | succ j =>
          have h := ih j
          simp only [List.getD, List.get?_eq_getElem?] at h
          simp [h]

/-- The post-filter tail of `handle_open_invite` never mutates state. -/
theorem open_invite_after_filter_state (ba : BridgeAuth) (req : OpenInviteRequest)
    (invite_id : Scalar) (bucket_id : Nat) :
    (open_invite_after_filter ba req invite_id bucket_id).2 = ba := by
  unfold open_invite_after_filter
  split
  · split <;> rfl
  · rfl

/-- Pre/post relation of a failing `handle_open_invite` call: all
non-filter state is unchanged, and either no filter changed, or exactly
one invite id was prepended to the current `bridgedb_pub_filter`, or to
exactly one generation of the retained `openinv_filter`s. -/
def oiFailureFrame (pre post : BridgeAuth) : Prop :=
  post.old_bridgedb_keys = pre.old_bridgedb_keys ∧
  post.bridgedb_pub = pre.bridgedb_pub ∧
  post.id_filter = pre.id_filter ∧
  post.inv_id_filter = pre.inv_id_filter ∧
  post.buckets = pre.buckets ∧
  post.today = pre.today ∧
  ((post.openinv_filter = pre.openinv_filter ∧
      post.bridgedb_pub_filter = pre.bridgedb_pub_filter) ∨
   (post.openinv_filter = pre.openinv_filter ∧
      ∃ x, post.bridgedb_pub_filter = x :: pre.bridgedb_pub_filter) ∨
   (post.bridgedb_pub_filter = pre.bridgedb_pub_filter ∧
      ∃ i x, post.openinv_filter
        = pre.openinv_filter.set i (x :: pre.openinv_filter.getD i [])))

/-- C1 (amended): a failing `handle_open_invite` leaves the issuer state
unchanged except for at most one insertion of the signature-verified
invite id into the consulted open-invitation filter — the filters are
consulted in `filter()` (inserting) mode after signature verification
but before the `piUserBlinding` proof is checked; a failing
`handle_level_up` leaves the state entirely unchanged, and its
`id_filter` is consulted in `filter()` mode only after the
zero-knowledge proof has verified. -/
theorem issuer_failure_state_frame :
    (∀ (verify : Invite → BdbKey → Option (Scalar × Nat)) (ba : BridgeAuth)
        (req : OpenInviteRequest) (out : OIOutcome) (ba2 : BridgeAuth),
        handle_open_invite verify ba req = (out, ba2) → out = OIOutcome.failure →
        oiFailureFrame ba ba2) ∧
    (∀ (ba : BridgeAuth) (req : LevelUpRequest) (out : Except Unit LevelUpIssued)
        (ba2 : BridgeAuth),
        handle_level_up ba req = (out, ba2) →
        (out = Except.error () → ba2 = ba) ∧ (ba2 ≠ ba → req.piUserOk = true)) := by
  constructor
  · intro verify ba req out ba2 heq hfail
    subst hfail
    unfold handle_open_invite at heq
    split at heq
    · rename_i invite_id bucket_id i hfold
      split at heq
      · rename_i f2 hcons
        injection heq with h1 h2
        subst h2
        rw [consult_seen hcons, set_getD_self]
        exact ⟨rfl, rfl, rfl, rfl, rfl, rfl, Or.inl ⟨rfl, rfl⟩⟩
      · rename_i f2 hcons
        have h2 := congrArg Prod.snd heq
        rw [open_invite_after_filter_state] at h2
        subst h2
        rw [consult_fresh hcons]
        exact ⟨rfl, rfl, rfl, rfl, rfl, rfl, Or.inr (Or.inr ⟨rfl, i, invite_id, rfl⟩)⟩
    · rename_i hfold
      split at heq
      · injection heq with h1 h2
        subst h2
        exact ⟨rfl, rfl, rfl, rfl, rfl, rfl, Or.inl ⟨rfl, rfl⟩⟩
      · rename_i invite_id bucket_id hverify
        split at heq
        · rename_i f2 hcons
          injection heq with h1 h2
          subst h2
          rw [consult_seen hcons]
          exact ⟨rfl, rfl, rfl, rfl, rfl, rfl, Or.inl ⟨rfl, rfl⟩⟩
        · rename_i f2 hcons
          have h2 := congrArg Prod.snd heq
          rw [open_invite_after_filter_state] at h2
          subst h2
          rw [consult_fresh hcons]
          exact ⟨rfl, rfl, rfl, rfl, rfl, rfl, Or.inr (Or.inl ⟨rfl, invite_id, rfl⟩)⟩
  · intro ba req out ba2 heq
    unfold handle_level_up at heq
    split at heq
    · injection heq with h1 h2
      subst h1; subst h2
      exact ⟨fun _ => rfl, fun hc => absurd rfl hc⟩
    · split at heq
      · injection heq with h1 h2
        subst h1; subst h2
        exact ⟨fun _ => rfl, fun hc => absurd rfl hc⟩
      · split at heq
        · split at heq
          · rename_i hok
            split at heq
            · rename_i f2 hcons
              injection heq with h1 h2
              subst h1; subst h2
              constructor
              · intro _
                rw [consult_seen hcons]
              · intro _
                exact hok
            · rename_i f2 hcons
              injection heq with h1 h2
              subst h1; subst h2
              constructor
              · intro hc
                exact Except.noConfusion hc
              · intro _
                exact hok
          · injection heq with h1 h2
            subst h1; subst h2
            refine ⟨fun _ => rfl, fun hc => absurd rfl hc⟩
        · injection heq with h1 h2
          subst h1; subst h2
          exact ⟨fun _ => rfl, fun hc => absurd rfl hc⟩

/-- A BridgeDb verifier for the C1 instance: token 3 verifies under the
current key 20. -/
def verifyC1 : Invite → BdbKey → Option (Scalar × Nat) := fun inv k =>
  if inv = 3 ∧ k = 20 then some (6, 7) else none

/-- Issuer state for the C1 instance: no retained keys, bucket 7 in
inventory, all filters empty. -/
def baC1 : BridgeAuth :=
  { old_bridgedb_keys := []
    openinv_filter := []
    bridgedb_pub := 20
    bridgedb_pub_filter := []
    id_filter := []
    inv_id_filter := []
    buckets := [7]
    today := 1000 }

/-- A signature-valid open-invite request whose `piUserBlinding` proof
fails to verify. -/
def reqC1 : OpenInviteRequest := { invite := 3, piUserBlindingOk := false }

/-- C1 counterexample: `handle_open_invite` consults the bridgedb filter
in inserting mode before verifying `piUserBlinding`: with a fresh,
signature-valid token whose user-blinding proof fails, the request
errors and yet the invite id has been recorded in the filter. -/
theorem open_invite_filter_mutation_before_proof :
    (handle_open_invite verifyC1 baC1 reqC1).1 = OIOutcome.failure ∧
    (handle_open_invite verifyC1 baC1 reqC1).2.bridgedb_pub_filter = [6] ∧
    reqC1.piUserBlindingOk = false :=
  ⟨rfl, rfl, rfl⟩

/-- The issuer state after the C1 failing request. -/
def baC1post : BridgeAuth := { baC1 with bridgedb_pub_filter := [6] }

/-- An issuer state for the level_up half of the C1 witness. -/
def baC1L : BridgeAuth :=
  { old_bridgedb_keys := []
    openinv_filter := []
    bridgedb_pub := 0
    bridgedb_pub_filter := []
    id_filter := [8]
    inv_id_filter := []
    buckets := []
    today := 900 }

/-- A level_up request whose proof fails to verify. -/
def reqC1L : LevelUpRequest :=
  { P_identity := false, P_reach_identity := false, id := 8, level := 2, piUserOk := false }

/-- Witness for C1: the open_invite frame relation at the concrete
failing request, and the level_up state preservation at a concrete
failing request. -/
theorem issuer_failure_state_frame_witness :
    oiFailureFrame baC1 baC1post ∧ baC1L = baC1L :=
  ⟨issuer_failure_state_frame.1 verifyC1 baC1 reqC1 OIOutcome.failure baC1post rfl rfl,
   (issuer_failure_state_frame.2 baC1L reqC1L (Except.error ()) baC1L rfl).1 rfl⟩

/-- A BridgeDb verifier for the C3 instance: token 0 carries
`(invite_id, bucket_id) = (5, 7)` and verifies under old key 10 only. -/
def verifyC3 : Invite → BdbKey → Option (Scalar × Nat) := fun inv k =>
  if inv = 0 ∧ k = 10 then some (5, 7) else none

/-- Issuer state retaining two old bridge-distribution keys `[10, 11]`
(key 10 is not the last retained key). -/
def baC3 : BridgeAuth :=
  { old_bridgedb_keys := [10, 11]
    openinv_filter := [[], []]
    bridgedb_pub := 12
    bridgedb_pub_filter := []
    id_filter := []
    inv_id_filter := []
    buckets := [7]
    today := 1000 }

/-- The same issuer state retaining only key 10. -/
def baC3s : BridgeAuth :=
  { old_bridgedb_keys := [10]
    openinv_filter := [[]]
    bridgedb_pub := 12
    bridgedb_pub_filter := []
    id_filter := []
    inv_id_filter := []
    buckets := [7]
    today := 1000 }

/-- A fresh open-invite request carrying token 0 with a verifying proof. -/
def reqC3 : OpenInviteRequest := { invite := 0, piUserBlindingOk := true }

/-- C3 (code bug): a fresh, valid open-invitation token that verifies
under retained old key 10 is rejected outright when a further retained
key exists after it, because the verification loop overwrites
`old_token` on every iteration and keeps only the last key's result;
the identical token is accepted when key 10 is the last retained key. -/
theorem open_invite_nonlast_old_key_rejected :
    (handle_open_invite verifyC3 baC3 reqC3).1 = OIOutcome.failure ∧
    (handle_open_invite verifyC3 baC3 reqC3).2 = baC3 ∧
    (handle_open_invite verifyC3 baC3s reqC3).1 = OIOutcome.success 5 7 :=
  ⟨rfl, rfl, rfl⟩

/-- Taking the length of the left part of an append yields it. -/
theorem take_append_left {α : Type} (l1 l2 : List α) (n : Nat) (h : l1.length = n) :
    (l1 ++ l2).take n = l1 := by
  subst h
  exact List.take_left l1 l2

/-- Dropping the length of the left part of an append yields the right part. -/
theorem drop_append_left {α : Type} (l1 l2 : List α) (n : Nat) (h : l1.length = n) :
    (l1 ++ l2).drop n = l2 := by
  subst h
  exact List.drop_left l1 l2

/-- C9: every migration-table entry produced by `encrypt_cred` has the
normative layout: the 96-byte plaintext is
`to_bucket(32) || P_compressed(32) || Q_compressed(32)`; the stored
value is 124 bytes, a 12-byte nonce followed by the 112-byte
AES-128-GCM ciphertext-plus-tag; the 16-byte label is the first half of
`SHA-256(id || from_bucket || Qk_compressed)` and the AES key is its
second half.  The external primitives enter through their length laws:
SHA-256 digests are 32 bytes and AES-128-GCM sealing appends a 16-byte
tag. -/
theorem encrypt_cred_layout (sha256 : List Nat → List Nat)
    (aesEncrypt : List Nat → List Nat → List Nat → List Nat)
    (id from_bucket to_bucket migration_type : Scalar)
    (mp mkp : IssuerPrivKey) (b : Nat) (noncebytes : List Nat)
    (label value aeskey plain : List Nat)
    (henc : encrypt_cred sha256 aesEncrypt id from_bucket to_bucket migration_type
        mp mkp b noncebytes = (label, value))
    (hkey : aeskey = (migFullHash sha256 mkp id from_bucket).drop 16)
    (hplain : plain = migPlaintext to_bucket (migMacP b)
        (migMacQ mp id from_bucket to_bucket migration_type b))
    (hsha : (migFullHash sha256 mkp id from_bucket).length = 32)
    (hnonce : noncebytes.length = 12)
    (haes : ∀ k n m, (aesEncrypt k n m).length = m.length + 16) :
    label = (migFullHash sha256 mkp id from_bucket).take 16 ∧
    label.length = 16 ∧
    aeskey.length = 16 ∧
    value = noncebytes ++ aesEncrypt aeskey noncebytes plain ∧
    value.take 12 = noncebytes ∧
    value.drop 12 = aesEncrypt aeskey noncebytes plain ∧
    (value.drop 12).length = MIGRATION_BYTES + 16 ∧
    value.length = ENC_MIGRATION_BYTES ∧
    ENC_MIGRATION_BYTES = 124 ∧
    plain = natBytes32 to_bucket ++ pointCompress (migMacP b)
      ++ pointCompress (migMacQ mp id from_bucket to_bucket migration_type b) ∧
    plain.length = MIGRATION_BYTES ∧
    MIGRATION_BYTES = 96 := by
  subst hkey
  subst hplain
  have hl : label = (migFullHash sha256 mkp id from_bucket).take 16 := by
    have h := congrArg Prod.fst henc
    simpa [encrypt_cred] using h.symm
  have hv : value = noncebytes
      ++ aesEncrypt ((migFullHash sha256 mkp id from_bucket).drop 16) noncebytes
          (migPlaintext to_bucket (migMacP b)
            (migMacQ mp id from_bucket to_bucket migration_type b)) := by
    have h := congrArg Prod.snd henc
    simpa [encrypt_cred] using h.symm
  have hplen : (migPlaintext to_bucket (migMacP b)
      (migMacQ mp id from_bucket to_bucket migration_type b)).length = MIGRATION_BYTES := by
    simp [migPlaintext, natBytes32_length, pointCompress_length, MIGRATION_BYTES]
  refine ⟨hl, ?_, ?_, hv, ?_, ?_, ?_, ?_, by norm_num [ENC_MIGRATION_BYTES, MIGRATION_BYTES],
      rfl, hplen, rfl⟩
  · rw [hl, List.length_take, hsha]
    norm_num
  · rw [List.length_drop, hsha]
  · rw [hv]
    exact take_append_left _ _ 12 hnonce
  · rw [hv]
    exact drop_append_left _ _ 12 hnonce
  · rw [hv, drop_append_left _ _ 12 hnonce, haes, hplen]
  · rw [hv, List.length_append, hnonce, haes, hplen]
    norm_num [ENC_MIGRATION_BYTES, MIGRATION_BYTES]

/-- A stand-in for the SHA-256 collaborator used to instantiate the
idealized-primitive hypotheses at concrete inputs: a 32-byte digest. -/
def shaModel (l : List Nat) : List Nat := natLE 32 (bytesToNat l)

/-- A stand-in AEAD seal: the plaintext followed by a 16-byte tag
derived from key and nonce. -/
def aesSealModel (k n m : List Nat) : List Nat := m ++ natLE 16 (bytesToNat (k ++ n))

/-- The matching stand-in AEAD open, failing on a tag mismatch. -/
def aesOpenModel (k n c : List Nat) : Option (List Nat) :=
  if 16 ≤ c.length ∧ c.drop (c.length - 16) = natLE 16 (bytesToNat (k ++ n)) then
    some (c.take (c.length - 16))
  else none

/-- A Migration issuer private key for the concrete instances. -/
def mpC9 : IssuerPrivKey := { x0tilde := 3, x := [2, 3, 4, 5, 6] }

/-- A MigrationKey issuer private key for the concrete instances. -/
def mkpC9 : IssuerPrivKey := { x0tilde := 7, x := [8, 9, 10] }

/-- A concrete 12-byte nonce. -/
def nonceC9 : List Nat := [0, 1, 2, 3, 4, 5, 6, 7, 8, 9, 10, 11]

/-- The concrete encrypted entry used by the C9 witness. -/
def encC9 : List Nat × List Nat :=
  encrypt_cred shaModel aesSealModel 1 2 3 0 mpC9 mkpC9 5 nonceC9

/-- Witness for C9 at a concrete entry built with the stand-in
primitives. -/
theorem encrypt_cred_layout_witness :
    encC9.1 = (migFullHash shaModel mkpC9 1 2).take 16 ∧
    encC9.2.length = ENC_MIGRATION_BYTES ∧
    encC9.2.take 12 = nonceC9 := by
  have h := encrypt_cred_layout shaModel aesSealModel 1 2 3 0 mpC9 mkpC9 5 nonceC9
    encC9.1 encC9.2 ((migFullHash shaModel mkpC9 1 2).drop 16)
    (migPlaintext 3 (migMacP 5) (migMacQ mpC9 1 2 3 0 5)) rfl rfl rfl
    (natLE_length 32 _) rfl
    (fun k n m => by simp [aesSealModel, natLE_length])
  obtain ⟨h1, _, _, _, h5, _, _, h8, _, _, _, _⟩ := h
  exact ⟨h1, h8, h5⟩

/-- Looking up the stored label in a singleton table finds the entry. -/
theorem tableLookup_singleton (k v : List Nat) : tableLookup [(k, v)] k = some v := by
  simp [tableLookup]

/-- Looking up a different label in a singleton table finds nothing. -/
theorem tableLookup_singleton_ne (k k2 v : List Nat) (h : k2 ≠ k) :
    tableLookup [(k, v)] k2 = none := by
  simp [tableLookup, Ne.symm h]

/-- The first 32 plaintext bytes are the serialized `to_bucket`. -/
theorem migPlaintext_take32 (to_bucket : Scalar) (P Q : Point) :
    (migPlaintext to_bucket P Q).take 32 = natBytes32 to_bucket := by
  rw [migPlaintext, List.append_assoc]
  exact take_append_left _ _ 32 (natBytes32_length to_bucket)

/-- Plaintext bytes 32..64 are the compressed MAC base `P`. -/
theorem migPlaintext_drop32_take32 (to_bucket : Scalar) (P Q : Point) :
    ((migPlaintext to_bucket P Q).drop 32).take 32 = pointCompress P := by
  rw [migPlaintext, List.append_assoc,
    drop_append_left _ _ 32 (natBytes32_length to_bucket)]
  exact take_append_left _ _ 32 (pointCompress_length P)

/-- Plaintext bytes 64..96 are the compressed MAC value `Q`. -/
theorem migPlaintext_drop64 (to_bucket : Scalar) (P Q : Point) :
    (migPlaintext to_bucket P Q).drop 64 = pointCompress Q := by
  rw [migPlaintext]
  refine drop_append_left _ _ 64 ?_
  rw [List.length_append, natBytes32_length, pointCompress_length]

/-- Deserializing a canonical serialized scalar recovers it. -/
theorem scalarFromBytes_roundtrip (n : Nat) (h : n < ellOrder) :
    scalarFromBytesModOrder (natBytes32 n) = n := by
  unfold scalarFromBytesModOrder
  rw [bytesToNat_natBytes32 n h, Nat.mod_eq_of_lt h]

/-- The MAC produced at encryption verifies: `Q = coeff · P` in the
discrete-log model. -/
theorem migMacQ_valid (mp : IssuerPrivKey)
    (id from_bucket to_bucket migration_type : Scalar) (b : Nat) :
    migMacQ mp id from_bucket to_bucket migration_type b
      = (migMacP b * migrationMacCoeff mp id from_bucket to_bucket migration_type)
          % ellOrder := by
  unfold migMacQ migMacP
  conv_lhs => rw [Nat.mul_mod]
  conv_rhs => rw [Nat.mul_mod]
  rw [Nat.mod_mod_of_dvd _ dvd_rfl]

/-- C5: over the idealized external primitives (AES-GCM opens what it
sealed under the same key and nonce; distinct hash inputs give distinct
labels), `decrypt_cred` on the table holding the entry produced by
`encrypt_cred` returns the Migration credential with the encrypted
`to_bucket` and a valid MAC when supplied the `(id, from_bucket)` used
at encryption together with the `Qk` derived from them, and returns
`none` for any supplied `(id, from_bucket, Qk)` whose label differs. -/
theorem migration_cred_decrypt_iff (sha256 : List Nat → List Nat)
    (aesEncrypt : List Nat → List Nat → List Nat → List Nat)
    (aesDecrypt : List Nat → List Nat → List Nat → Option (List Nat))
    (id from_bucket to_bucket : Scalar) (mtType : MigrationType)
    (mp mkp : IssuerPrivKey) (b : Nat) (noncebytes : List Nat)
    (hto : to_bucket < ellOrder)
    (hnonce : noncebytes.length = 12)
    (hdec : aesDecrypt ((migFullHash sha256 mkp id from_bucket).drop 16) noncebytes
        (aesEncrypt ((migFullHash sha256 mkp id from_bucket).drop 16) noncebytes
          (migPlaintext to_bucket (migMacP b)
            (migMacQ mp id from_bucket to_bucket mtType.toScalar b)))
      = some (migPlaintext to_bucket (migMacP b)
          (migMacQ mp id from_bucket to_bucket mtType.toScalar b))) :
    (decrypt_cred sha256 aesDecrypt (migrationQk mkp id from_bucket) id from_bucket mtType
        [encrypt_cred sha256 aesEncrypt id from_bucket to_bucket mtType.toScalar
          mp mkp b noncebytes]
      = some
        { P := migMacP b
          Q := migMacQ mp id from_bucket to_bucket mtType.toScalar b
          lox_id := id
          from_bucket := from_bucket
          to_bucket := to_bucket
          migration_type := mtType.toScalar } ∧
      migMacQ mp id from_bucket to_bucket mtType.toScalar b
        = (migMacP b * migrationMacCoeff mp id from_bucket to_bucket mtType.toScalar)
            % ellOrder) ∧
    (∀ (id2 from2 : Scalar) (Qk2 : Point),
        (sha256 (migHashInput id2 from2 Qk2)).take 16
            ≠ (migFullHash sha256 mkp id from_bucket).take 16 →
        decrypt_cred sha256 aesDecrypt Qk2 id2 from2 mtType
            [encrypt_cred sha256 aesEncrypt id from_bucket to_bucket mtType.toScalar
              mp mkp b noncebytes]
          = none) := by
  have hP : migMacP b < ellOrder := Nat.mod_lt b ellOrder_pos
  have hQ : migMacQ mp id from_bucket to_bucket mtType.toScalar b < ellOrder :=
    Nat.mod_lt _ ellOrder_pos
  constructor
  · constructor
    · simp only [decrypt_cred, encrypt_cred]
      rw [show sha256 (migHashInput id from_bucket (migrationQk mkp id from_bucket))
          = migFullHash sha256 mkp id from_bucket from rfl]
      rw [tableLookup_singleton]
      simp only
      rw [take_append_left _ _ 12 hnonce, drop_append_left _ _ 12 hnonce, hdec]
      simp only
      rw [migPlaintext_take32, migPlaintext_drop32_take32, migPlaintext_drop64,
        scalarFromBytes_roundtrip to_bucket hto,
        pointDecompress_pointCompress _ hP, pointDecompress_pointCompress _ hQ]
    · exact migMacQ_valid mp id from_bucket to_bucket mtType.toScalar b
  · intro id2 from2 Qk2 hlab
    simp only [decrypt_cred, encrypt_cred]
    rw [tableLookup_singleton_ne _ _ _ hlab]

/-- The concrete encrypted entry used by the C5 witness (a Blockage
migration from bucket scalar 2 to bucket scalar 3 for lox id 1). -/
def encC5 : List Nat × List Nat :=
  encrypt_cred shaModel aesSealModel 1 2 3 1 mpC9 mkpC9 5 nonceC9

/-- The Migration credential recovered by the C5 witness. -/
def credMigC5 : Migration :=
  { P := migMacP 5, Q := migMacQ mpC9 1 2 3 1 5, lox_id := 1, from_bucket := 2,
    to_bucket := 3, migration_type := 1 }

set_option maxRecDepth 100000 in
/-- Witness for C5: with the stand-in primitives, decryption at the
matching `(id, from_bucket, Qk)` recovers the entry, and a mismatching
id finds nothing. -/
theorem migration_cred_decrypt_iff_witness :
    decrypt_cred shaModel aesOpenModel (migrationQk mkpC9 1 2) 1 2 MigrationType.Blockage
      [encC5] = some credMigC5 ∧
    decrypt_cred shaModel aesOpenModel (migrationQk mkpC9 99 2) 99 2 MigrationType.Blockage
      [encC5] = none :=
  ⟨(migration_cred_decrypt_iff shaModel aesSealModel aesOpenModel 1 2 3
      MigrationType.Blockage mpC9 mkpC9 5 nonceC9 (by decide) rfl (by decide)).1.1,
   (migration_cred_decrypt_iff shaModel aesSealModel aesOpenModel 1 2 3
      MigrationType.Blockage mpC9 mkpC9 5 nonceC9 (by decide) rfl (by decide)).2
     99 2 (migrationQk mkpC9 99 2) (by decide)⟩

end Lox
